import Mathlib

/-!
Shallow embedding of `streamlit_strength_only.py`, a Streamlit strength
prescription application backed by a SQLite store through SQLAlchemy.

Modelling conventions: machine floats are modelled as rationals with exact
arithmetic, `date` and `datetime` values as natural numbers (an ordinal
encoding, so the numeric order is the calendar order), each table as a list
of rows in insertion order, and autoincrement primary keys as explicit
natural number fields.  Every definition is translated from the source
file; the source line numbers are cited on each definition.
-/

namespace StrengthApp

/-- Row of the `users` table (class `User`, source lines 44-51). -/
structure User where
  id : Nat
  email : String
  name : String
  role : String
  hash : String
  created_at : Nat
  deriving DecidableEq

/-- Row of the `clients` table (class `Client`, source lines 54-65). -/
structure Client where
  id : Nat
  user_id : Nat
  sex : String
  dob : Nat
  height_cm : ℚ
  weight_kg : ℚ
  notes : String
  owner_id : Nat
  deriving DecidableEq

/-- Row of the `exercises` table (class `Exercise`, source lines 68-75). -/
structure Exercise where
  id : Nat
  name : String
  category : String
  equipment : String
  unilateral : Bool
  description : String
  deriving DecidableEq

/-- Row of the `training_plans` table (class `TrainingPlan`, lines 78-86). -/
structure TrainingPlan where
  id : Nat
  client_id : Nat
  name : String
  start_date : Nat
  end_date : Nat
  goal : String
  deriving DecidableEq

/-- Row of the `training_sessions` table (class `TrainingSession`, lines 89-96). -/
structure TrainingSession where
  id : Nat
  plan_id : Nat
  date : Nat
  focus : String
  notes : String
  deriving DecidableEq

/-- Row of the `set_prescriptions` table (class `SetPrescription`, lines 99-111). -/
structure SetPrescription where
  id : Nat
  session_id : Nat
  exercise_id : Nat
  sets : Nat
  reps : Nat
  intensity_pct_1rm : ℚ
  load_kg : ℚ
  rest_sec : Nat
  notes : String
  deriving DecidableEq

/-- Row of the `strength_tests` table (class `StrengthTest`, lines 114-123). -/
structure StrengthTest where
  id : Nat
  client_id : Nat
  exercise_id : Nat
  date : Nat
  one_rm_kg : ℚ
  notes : String
  deriving DecidableEq

/-- The whole relational store (the SQLite file `strength_only.db`):
one list of rows per table, in insertion order. -/
structure Store where
  users : List User
  clients : List Client
  exercises : List Exercise
  training_plans : List TrainingPlan
  training_sessions : List TrainingSession
  set_prescriptions : List SetPrescription
  strength_tests : List StrengthTest
  deriving DecidableEq

/-- The store right after `Base.metadata.create_all` on a fresh file
(line 126), and right after `drop_all` plus `create_all` (lines 355-356). -/
def emptyStore : Store := ⟨[], [], [], [], [], [], []⟩

/-- Python `x or d` on a natural number: `0` is falsy. -/
def pyOrNat (x d : Nat) : Nat := if x = 0 then d else x

/-- Python `x or d` on a float (modelled as a rational): `0.0` is falsy. -/
def pyOrQ (x d : ℚ) : ℚ := if x = 0 then d else x

/-- Tonnage of one displayed set row, source line 339:
`(sp.sets or 0) * (sp.reps or 0) * (sp.load_kg or 0.0)`. -/
def tonnage (sets reps : Nat) (load_kg : ℚ) : ℚ :=
  ((pyOrNat sets 0 : Nat) : ℚ) * ((pyOrNat reps 0 : Nat) : ℚ) * pyOrQ load_kg 0

/-- The query on line 334: set prescriptions of one session. -/
def session_sets (db : Store) (s_id : Nat) : List SetPrescription :=
  db.set_prescriptions.filter (fun sp => sp.session_id == s_id)

/-- The running total of lines 335-340: `session_tonnage` starts at `0.0`
and accumulates `tonnage` over the set rows of the session. -/
def session_tonnage (db : Store) (s_id : Nat) : ℚ :=
  (session_sets db s_id).foldl (fun acc sp => acc + tonnage sp.sets sp.reps sp.load_kg) 0

/-- Round to the nearest integer, ties to the even integer: the behaviour
of the Python built-in `round` on an exactly representable value. -/
def pyRoundInt (x : ℚ) : ℤ :=
  if x - Int.floor x < 1 / 2 then Int.floor x
  else if 1 / 2 < x - Int.floor x then Int.floor x + 1
  else if Int.floor x % 2 = 0 then Int.floor x else Int.floor x + 1

/-- Python `round(x, 1)`: round to one decimal place. -/
def pyRound1 (x : ℚ) : ℚ := ((pyRoundInt (x * 10) : ℤ) : ℚ) / 10

/-- Suggested load, source line 309:
`suggested_load = round((pct / 100.0) * one_rm_input, 1)`.
A plain expression in the page body: it only reads its two inputs and
writes nothing, so it is pure (here a Lean function by construction). -/
def suggested_load (pct : Nat) (one_rm_input : ℚ) : ℚ :=
  pyRound1 ((pct : ℚ) / 100 * one_rm_input)

/-- Descending-date comparison used by `.order_by(StrengthTest.date.desc())`. -/
def testDateGE (a b : StrengthTest) : Prop := b.date ≤ a.date

instance : DecidableRel testDateGE :=
  fun a b => inferInstanceAs (Decidable (b.date ≤ a.date))

instance : IsTotal StrengthTest testDateGE := ⟨fun a b => le_total b.date a.date⟩

instance : IsTrans StrengthTest testDateGE := ⟨fun _ _ _ hab hbc => le_trans hbc hab⟩

/-- Result list of `.order_by(StrengthTest.date.desc())`: the rows sorted
by descending date (the tie order is unspecified by the database; a stable
sort is one refinement of it). -/
def sortTestsByDateDesc (l : List StrengthTest) : List StrengthTest :=
  l.insertionSort testDateGE

/-- The filter of lines 253-254: tests of one (client, exercise) pair. -/
def matching_tests (db : Store) (client_id exercise_id : Nat) : List StrengthTest :=
  db.strength_tests.filter (fun t => t.client_id == client_id && t.exercise_id == exercise_id)

/-- Source lines 251-258, `get_latest_one_rm`: order the matching tests by
descending date, take the first, return its `one_rm_kg` (or `None`). -/
def get_latest_one_rm (db : Store) (client_id exercise_id : Nat) : Option ℚ :=
  (sortTestsByDateDesc (matching_tests db client_id exercise_id)).head?.map
    (fun t => t.one_rm_kg)

/-- Default of the 1RM number input, source lines 303-307:
`float(latest_1rm) if latest_1rm else 100.0`.  Python truthiness makes
both `None` and `0.0` falsy, hence the inner zero test. -/
def one_rm_default (db : Store) (client_id exercise_id : Nat) : ℚ :=
  match get_latest_one_rm db client_id exercise_id with
  | some v => if v = 0 then 100 else v
  | none => 100

/-- The filter of line 220: tests of one client. -/
def client_tests (db : Store) (client_id : Nat) : List StrengthTest :=
  db.strength_tests.filter (fun t => t.client_id == client_id)

/-- Source lines 218-224: the 20 most recent tests of the chosen client,
newest first. -/
def recent_tests (db : Store) (client_id : Nat) : List StrengthTest :=
  (sortTestsByDateDesc (client_tests db client_id)).take 20

/-- The `.get(exercise_id)` primary key lookup on the exercises table. -/
def get_exercise (db : Store) (exercise_id : Nat) : Option Exercise :=
  db.exercises.find? (fun e => e.id == exercise_id)

/-- The rendered history of lines 225-227: for each recent test one line
carrying its date, its exercise name, and its 1RM in kg. -/
def history_lines (db : Store) (client_id : Nat) : List (Nat × Option String × ℚ) :=
  (recent_tests db client_id).map
    (fun t => (t.date, (get_exercise db t.exercise_id).map (fun e => e.name), t.one_rm_kg))

/-- Saving a 1RM test, source lines 211-214: `db.add(t)` then commit
appends one `StrengthTest` row. -/
def save_strength_test (db : Store) (t : StrengthTest) : Store :=
  { db with strength_tests := db.strength_tests ++ [t] }

/-- Adding a session, source lines 265-268: appends one `TrainingSession` row. -/
def add_training_session (db : Store) (s : TrainingSession) : Store :=
  { db with training_sessions := db.training_sessions ++ [s] }

/-- Adding a set, source lines 318-330: appends one `SetPrescription` row. -/
def add_set_prescription (db : Store) (sp : SetPrescription) : Store :=
  { db with set_prescriptions := db.set_prescriptions ++ [sp] }

/-- Insert of a `Client` row (as in `init_demo_data`, lines 140-141).  The
engine is created on line 36 as a plain SQLite engine without turning on
the SQLite `foreign_keys` pragma, which is off by default, so the declared
`ForeignKey("users.id")` columns are not enforced by the store: the insert
is accepted unconditionally, whatever `user_id` carries. -/
def insert_client (db : Store) (c : Client) : Store :=
  { db with clients := db.clients ++ [c] }

/-- Demo coach user (line 136). -/
def demo_coach : User :=
  { id := 1, email := "coach@example.com", name := "Coach Demo", role := "coach",
    hash := "demo", created_at := 0 }

/-- Demo client user (line 137). -/
def demo_client_user : User :=
  { id := 2, email := "client@example.com", name := "Client Demo", role := "client",
    hash := "demo", created_at := 0 }

/-- Demo client row (line 140): linked to the client user, owned by the coach. -/
def demo_client : Client :=
  { id := 1, user_id := 2, sex := "female", dob := 19900101, height_cm := 165,
    weight_kg := 60, notes := "", owner_id := 1 }

/-- Demo exercise catalog (lines 142-147). -/
def demo_exercises : List Exercise :=
  [ { id := 1, name := "Back Squat", category := "squat", equipment := "barbell",
      unilateral := false, description := "" },
    { id := 2, name := "Bench Press", category := "push", equipment := "barbell",
      unilateral := false, description := "" },
    { id := 3, name := "Deadlift", category := "hinge", equipment := "barbell",
      unilateral := false, description := "" },
    { id := 4, name := "Lat Pulldown", category := "pull", equipment := "machine",
      unilateral := false, description := "" } ]

/-- Demo training plan (line 150); `today` is the date the script runs. -/
def demo_plan (today : Nat) : TrainingPlan :=
  { id := 1, client_id := 1, name := "Preseason 4 weeks", start_date := today,
    end_date := today + 27, goal := "Fuerza básica" }

/-- Source lines 133-153, `init_demo_data`: seeds the demo rows only when
the users table has no row (`if not db.query(User).first()`); otherwise it
closes the session having changed nothing.  Autoincrement ids are modelled
with the values they receive from an empty store, the only state in which
the seeding branch runs in the program. -/
def init_demo_data (today : Nat) (db : Store) : Store :=
  if db.users = [] then
    { db with
      users := db.users ++ [demo_coach, demo_client_user],
      clients := db.clients ++ [demo_client],
      exercises := db.exercises ++ demo_exercises,
      training_plans := db.training_plans ++ [demo_plan today] }
  else db

/-- Source lines 354-357, the reset button: `drop_all` then `create_all`
leaves the empty store, then `init_demo_data()` reseeds it. -/
def reset_database (today : Nat) (_db : Store) : Store :=
  init_demo_data today emptyStore

/-- The four sidebar pages (lines 385-393). -/
inductive Page where
  | strength_tests
  | sessions
  | diagnostics
  | settings
  deriving DecidableEq

/-- One run of the script body after the sidebar (lines 395-406): when no
`user` key is in the session state and the page is not Diagnostics,
`require_auth` (lines 178-182) shows the login form and calls `st.stop()`,
so no page function runs (`none`); otherwise the selected page function is
rendered. -/
def run_app (st_user : Option User) (page : Page) : Option Page :=
  if st_user = none ∧ page ≠ Page.diagnostics then none
  else some page

/-! Helper lemmas shared by several claims. -/

lemma pyOrNat_zero (x : Nat) : pyOrNat x 0 = x := by
  unfold pyOrNat; split <;> simp_all

lemma pyOrQ_zero (x : ℚ) : pyOrQ x 0 = x := by
  unfold pyOrQ; split <;> simp_all

lemma tonnage_eq (s r : Nat) (l : ℚ) : tonnage s r l = (s : ℚ) * (r : ℚ) * l := by
  simp [tonnage, pyOrNat_zero, pyOrQ_zero]

lemma foldl_add_map (f : SetPrescription → ℚ) (l : List SetPrescription) (c : ℚ) :
    l.foldl (fun acc sp => acc + f sp) c = c + (l.map f).sum := by
  induction l generalizing c with
  | nil => simp
  | cons a t ih => simp [ih, add_assoc]

/-- C1: for all non-negative sets, reps and load_kg, the tonnage of a set
row equals sets * reps * load_kg (e.g. tonnage 5 5 100 = 2500), and the
displayed session tonnage equals the sum of this product over every
`SetPrescription` row belonging to that session. -/
theorem tonnage_formula_and_session_sum :
    (∀ (sets reps : Nat) (load_kg : ℚ), 0 ≤ load_kg →
      tonnage sets reps load_kg = (sets : ℚ) * (reps : ℚ) * load_kg) ∧
    (∀ (db : Store) (s_id : Nat),
      session_tonnage db s_id =
        ((db.set_prescriptions.filter (fun sp => sp.session_id == s_id)).map
          (fun sp => (sp.sets : ℚ) * (sp.reps : ℚ) * sp.load_kg)).sum) ∧
    tonnage 5 5 100 = 2500 := by
  refine ⟨fun s r l _ => tonnage_eq s r l, fun db s_id => ?_, by rw [tonnage_eq]; norm_num⟩
  rw [session_tonnage, foldl_add_map, zero_add, session_sets]
  simp [tonnage_eq]

/-- C1 witness: the tonnage formula instantiated at 4 sets of 6 reps at 75 kg. -/
theorem tonnage_formula_and_session_sum_witness :
    tonnage 4 6 75 = (4 : ℚ) * (6 : ℚ) * 75 :=
  tonnage_formula_and_session_sum.1 4 6 75 (by norm_num)

/-- C2: for every pct in [0, 100] and one_rm ≥ 0, the suggested load shown
before saving a set equals round(pct / 100 * one_rm, 1); it is a pure
expression of its two inputs (a Lean function here, so side-effect free by
construction), and suggested_load 75 100 = 75. -/
theorem suggested_load_formula :
    (∀ (pct : Nat) (one_rm : ℚ), pct ≤ 100 → 0 ≤ one_rm →
      suggested_load pct one_rm = pyRound1 ((pct : ℚ) / 100 * one_rm)) ∧
    suggested_load 75 100 = 75 := by
  refine ⟨fun _ _ _ _ => rfl, ?_⟩
  norm_num [suggested_load, pyRound1, pyRoundInt]

/-- C2 witness: the suggested-load formula instantiated at 75 percent of a
100 kg one-rep maximum. -/
theorem suggested_load_formula_witness :
    suggested_load 75 100 = pyRound1 (((75 : Nat) : ℚ) / 100 * 100) :=
  suggested_load_formula.1 75 100 (by norm_num) (by norm_num)

lemma mem_sortTestsByDateDesc {l : List StrengthTest} {t : StrengthTest} :
    t ∈ sortTestsByDateDesc l ↔ t ∈ l :=
  List.mem_insertionSort testDateGE

lemma head_sortTestsByDateDesc {l : List StrengthTest} {t : StrengthTest}
    (h : (sortTestsByDateDesc l).head? = some t) :
    t ∈ l ∧ ∀ u ∈ l, u.date ≤ t.date := by
  have hsort : List.Sorted testDateGE (sortTestsByDateDesc l) :=
    List.sorted_insertionSort testDateGE l
  cases hs : sortTestsByDateDesc l with
  | nil => rw [hs] at h; cases h
  | cons a rest =>
    rw [hs] at h
    have hta : a = t := by simpa using h
    subst hta
    rw [hs] at hsort
    constructor
    · exact mem_sortTestsByDateDesc.mp (by rw [hs]; exact List.mem_cons_self a rest)
    · intro u hu
      have hu2 : u ∈ sortTestsByDateDesc l := mem_sortTestsByDateDesc.mpr hu
      rw [hs] at hu2
      rcases List.mem_cons.mp hu2 with h1 | h2
      · exact h1 ▸ le_refl _
      · exact List.rel_of_sorted_cons hsort u h2

lemma mem_matching_tests {db : Store} {c e : Nat} {t : StrengthTest} :
    t ∈ matching_tests db c e ↔
      t ∈ db.strength_tests ∧ t.client_id = c ∧ t.exercise_id = e := by
  simp [matching_tests, List.mem_filter]

lemma get_latest_one_rm_none_iff (db : Store) (c e : Nat) :
    get_latest_one_rm db c e = none ↔ matching_tests db c e = [] := by
  unfold get_latest_one_rm
  constructor
  · intro h
    by_contra hne
    cases hm : matching_tests db c e with
    | nil => exact hne hm
    | cons a rest =>
      have ha : a ∈ sortTestsByDateDesc (matching_tests db c e) :=
        mem_sortTestsByDateDesc.mpr (by rw [hm]; exact List.mem_cons_self a rest)
      cases hs : sortTestsByDateDesc (matching_tests db c e) with
      | nil => rw [hs] at ha; cases ha
      | cons b r2 => rw [hs] at h; simp at h
  · intro h; rw [h]; rfl

/-- C3: for every (client, exercise) pair, `get_latest_one_rm` returns the
one_rm_kg of a `StrengthTest` row of that pair whose date is maximal among
the matching rows, and returns `none` exactly when no row matches. -/
theorem latest_one_rm_spec (db : Store) (c e : Nat) :
    (get_latest_one_rm db c e = none ↔
      ∀ t ∈ db.strength_tests, ¬(t.client_id = c ∧ t.exercise_id = e)) ∧
    (∀ v, get_latest_one_rm db c e = some v →
      ∃ t ∈ db.strength_tests, t.client_id = c ∧ t.exercise_id = e ∧
        t.one_rm_kg = v ∧
        ∀ u ∈ db.strength_tests, u.client_id = c → u.exercise_id = e →
          u.date ≤ t.date) := by
  constructor
  · rw [get_latest_one_rm_none_iff]
    constructor
    · intro h t ht hm
      have htm : t ∈ matching_tests db c e := mem_matching_tests.mpr ⟨ht, hm.1, hm.2⟩
      rw [h] at htm; cases htm
    · intro h
      cases hm : matching_tests db c e with
      | nil => rfl
      | cons a rest =>
        have ha : a ∈ matching_tests db c e := by rw [hm]; exact List.mem_cons_self a rest
        have hp := mem_matching_tests.mp ha
        exact absurd ⟨hp.2.1, hp.2.2⟩ (h a hp.1)
  · intro v hv
    unfold get_latest_one_rm at hv
    cases hh : (sortTestsByDateDesc (matching_tests db c e)).head? with
    | none => rw [hh] at hv; simp at hv
    | some t =>
      rw [hh] at hv
      have hvt : t.one_rm_kg = v := by simpa using hv
      obtain ⟨htm, hmax⟩ := head_sortTestsByDateDesc hh
      obtain ⟨hts, htc, hte⟩ := mem_matching_tests.mp htm
      refine ⟨t, hts, htc, hte, hvt, ?_⟩
      intro u hu huc hue
      exact hmax u (mem_matching_tests.mpr ⟨hu, huc, hue⟩)

/-- Concrete test rows used to exercise the latest-1RM query. -/
def testA : StrengthTest :=
  { id := 1, client_id := 1, exercise_id := 1, date := 3, one_rm_kg := 90, notes := "" }

def testB : StrengthTest :=
  { id := 2, client_id := 1, exercise_id := 1, date := 7, one_rm_kg := 120, notes := "" }

def testC : StrengthTest :=
  { id := 3, client_id := 2, exercise_id := 1, date := 9, one_rm_kg := 80, notes := "" }

def dbLatest : Store := { emptyStore with strength_tests := [testA, testB, testC] }

/-- C3 witness: in `dbLatest` the query at (client 1, exercise 1) returns
some 120, the value of the matching row with the maximal date. -/
theorem latest_one_rm_spec_witness :
    ∃ t ∈ dbLatest.strength_tests, t.client_id = 1 ∧ t.exercise_id = 1 ∧
      t.one_rm_kg = 120 ∧ ∀ u ∈ dbLatest.strength_tests,
        u.client_id = 1 → u.exercise_id = 1 → u.date ≤ t.date :=
  (latest_one_rm_spec dbLatest 1 1).2 120 (by decide)

/-- Store holding a single strength test whose recorded 1RM is 0 kg. -/
def testZero : StrengthTest :=
  { id := 1, client_id := 1, exercise_id := 1, date := 5, one_rm_kg := 0, notes := "" }

def dbZero : Store := { emptyStore with strength_tests := [testZero] }

/-- C4 counterexample: in `dbZero` a `StrengthTest` row exists for client 1
and exercise 1 (its recorded 1RM is 0 kg) and `get_latest_one_rm` returns
some 0, so the claim requires the 1RM input default to be 0; Python
truthiness (`if latest_1rm`) treats 0.0 like None and the default is 100. -/
theorem one_rm_default_counterexample :
    (∃ t ∈ dbZero.strength_tests, t.client_id = 1 ∧ t.exercise_id = 1) ∧
    get_latest_one_rm dbZero 1 1 = some 0 ∧
    one_rm_default dbZero 1 1 = 100 ∧ (100 : ℚ) ≠ 0 := by
  refine ⟨⟨testZero, by decide, rfl, rfl⟩, by decide, by decide, by norm_num⟩

/-- C4 amended: the 1RM input is defaulted to latest_one_rm(client,
exercise) whenever that value exists and is nonzero, and to 100.0 when no
`StrengthTest` row exists for the pair or when the latest recorded 1RM is
0 (Python truthiness treats 0.0 like the absent case). -/
theorem one_rm_default_amended (db : Store) (c e : Nat) :
    (∀ v, get_latest_one_rm db c e = some v → v ≠ 0 → one_rm_default db c e = v) ∧
    (get_latest_one_rm db c e = none → one_rm_default db c e = 100) ∧
    (get_latest_one_rm db c e = some 0 → one_rm_default db c e = 100) := by
  unfold one_rm_default
  refine ⟨fun v hv hne => ?_, fun h => ?_, fun h => ?_⟩
  · simp [hv, hne]
  · simp [h]
  · simp [h]

/-- C4 amended witness: in `dbLatest` the latest 1RM for (client 1,
exercise 1) is the nonzero 120, and the input default is exactly 120. -/
theorem one_rm_default_amended_witness :
    one_rm_default dbLatest 1 1 = 120 :=
  (one_rm_default_amended dbLatest 1 1).1 120 (by decide) (by norm_num)

/-- Client row whose `user_id` (999) matches no User row. -/
def clientOrphan : Client :=
  { id := 1, user_id := 999, sex := "", dob := 0, height_cm := 0, weight_kg := 0,
    notes := "", owner_id := 1 }

/-- C5 evidence: inserting a Client whose user_id is 999 into a store
whose users table is empty is accepted by the store — the row lands in the
clients table although no User row exists at all, because the SQLite
engine of line 36 never enables the foreign_keys pragma, leaving the
declared foreign keys unenforced.  The claim says this insert must be
rejected with a referential-integrity error. -/
theorem insert_client_accepts_missing_user :
    (insert_client emptyStore clientOrphan).clients = [clientOrphan] ∧
    clientOrphan.user_id = 999 ∧
    (insert_client emptyStore clientOrphan).users = [] :=
  ⟨rfl, rfl, rfl⟩

/-- C6: after the reset operation the store holds exactly the demo-seeded
rows — 2 users (1 with role coach, 1 with role client), 1 client, 4
exercises, 1 training plan — and no session, test or set-prescription
rows, whatever the store held before. -/
theorem reset_database_spec (today : Nat) (db : Store) :
    (reset_database today db).users.length = 2 ∧
    ((reset_database today db).users.filter (fun u => u.role == "coach")).length = 1 ∧
    ((reset_database today db).users.filter (fun u => u.role == "client")).length = 1 ∧
    (reset_database today db).clients.length = 1 ∧
    (reset_database today db).exercises.length = 4 ∧
    (reset_database today db).training_plans.length = 1 ∧
    (reset_database today db).training_sessions = [] ∧
    (reset_database today db).strength_tests = [] ∧
    (reset_database today db).set_prescriptions = [] ∧
    reset_database today db = init_demo_data today emptyStore :=
  ⟨rfl, rfl, rfl, rfl, rfl, rfl, rfl, rfl, rfl, rfl⟩

/-- C9: each form submission (save strength test, add session, add set
prescription) appends exactly one new row to exactly one table, after all
pre-existing rows, and leaves every other table unchanged; none of these
operations updates or deletes a row. -/
theorem single_row_insert_spec (db : Store) (t : StrengthTest)
    (s : TrainingSession) (sp : SetPrescription) :
    (save_strength_test db t).strength_tests = db.strength_tests ++ [t] ∧
    (save_strength_test db t).users = db.users ∧
    (save_strength_test db t).clients = db.clients ∧
    (save_strength_test db t).exercises = db.exercises ∧
    (save_strength_test db t).training_plans = db.training_plans ∧
    (save_strength_test db t).training_sessions = db.training_sessions ∧
    (save_strength_test db t).set_prescriptions = db.set_prescriptions ∧
    (add_training_session db s).training_sessions = db.training_sessions ++ [s] ∧
    (add_training_session db s).users = db.users ∧
    (add_training_session db s).clients = db.clients ∧
    (add_training_session db s).exercises = db.exercises ∧
    (add_training_session db s).training_plans = db.training_plans ∧
    (add_training_session db s).set_prescriptions = db.set_prescriptions ∧
    (add_training_session db s).strength_tests = db.strength_tests ∧
    (add_set_prescription db sp).set_prescriptions = db.set_prescriptions ++ [sp] ∧
    (add_set_prescription db sp).users = db.users ∧
    (add_set_prescription db sp).clients = db.clients ∧
    (add_set_prescription db sp).exercises = db.exercises ∧
    (add_set_prescription db sp).training_plans = db.training_plans ∧
    (add_set_prescription db sp).training_sessions = db.training_sessions ∧
    (add_set_prescription db sp).strength_tests = db.strength_tests :=
  ⟨rfl, rfl, rfl, rfl, rfl, rfl, rfl, rfl, rfl, rfl, rfl, rfl, rfl, rfl, rfl, rfl,
   rfl, rfl, rfl, rfl, rfl⟩

/-- C10: demo seeding is idempotent — whenever at least one User row
exists, `init_demo_data` leaves the store completely unchanged, so seeding
twice in a row from the empty store equals seeding once. -/
theorem init_demo_data_idempotent (today : Nat) (db : Store) :
    (db.users ≠ [] → init_demo_data today db = db) ∧
    init_demo_data today (init_demo_data today emptyStore) =
      init_demo_data today emptyStore := by
  have h1 : ∀ (d : Store), d.users ≠ [] → init_demo_data today d = d :=
    fun d h => by simp [init_demo_data, h]
  refine ⟨h1 db, h1 _ ?_⟩
  simp [init_demo_data, emptyStore]

/-- C10 witness: seeding the already-seeded store changes nothing. -/
theorem init_demo_data_idempotent_witness :
    init_demo_data 0 (init_demo_data 0 emptyStore) = init_demo_data 0 emptyStore :=
  (init_demo_data_idempotent 0 (init_demo_data 0 emptyStore)).1 (by decide)

/-- C8: with no user in the session state, the Diagnostics page is still
rendered, while every other page renders nothing (the run stops at the
authentication gate before any page function). -/
theorem auth_gate_spec :
    run_app none Page.diagnostics = some Page.diagnostics ∧
    ∀ p : Page, p ≠ Page.diagnostics → run_app none p = none := by
  refine ⟨rfl, fun p hp => ?_⟩
  simp [run_app, hp]

/-- C8 witness: the Settings page is not rendered without a session. -/
theorem auth_gate_spec_witness :
    run_app none Page.settings = none :=
  auth_gate_spec.2 Page.settings (by decide)

lemma mem_client_tests {db : Store} {c : Nat} {t : StrengthTest} :
    t ∈ client_tests db c ↔ t ∈ db.strength_tests ∧ t.client_id = c := by
  simp [client_tests, List.mem_filter]

/-- C7: the history view for a chosen client lists at most 20 rows and is
complete — its length is the minimum of 20 and the number of the client's
tests, so no matching row is dropped while fewer than 20 are shown; each
listed row is a strength test of that client (tests of other clients are
excluded), the rows are ordered newest first by date, every matching row
left out is no newer than any listed row, and each listed line carries the
test date, the name of its exercise, and the 1RM value. -/
theorem recent_tests_spec (db : Store) (c : Nat) :
    (recent_tests db c).length ≤ 20 ∧
    (recent_tests db c).length = min 20 (client_tests db c).length ∧
    (∀ t ∈ recent_tests db c, t ∈ db.strength_tests ∧ t.client_id = c) ∧
    List.Pairwise (fun a b => b.date ≤ a.date) (recent_tests db c) ∧
    (∀ u ∈ db.strength_tests, u.client_id = c → u ∉ recent_tests db c →
      ∀ t ∈ recent_tests db c, u.date ≤ t.date) ∧
    history_lines db c = (recent_tests db c).map
      (fun t => (t.date, (get_exercise db t.exercise_id).map (fun e => e.name),
        t.one_rm_kg)) := by
  refine ⟨List.length_take_le 20 _, ?_, ?_, ?_, ?_, rfl⟩
  · have hlen : ((client_tests db c).insertionSort testDateGE).length =
        (client_tests db c).length :=
      (List.perm_insertionSort testDateGE (client_tests db c)).length_eq
    show (((client_tests db c).insertionSort testDateGE).take 20).length =
      min 20 (client_tests db c).length
    rw [List.length_take, hlen]
  · intro t ht
    exact mem_client_tests.mp (mem_sortTestsByDateDesc.mp (List.mem_of_mem_take ht))
  · have hsort : List.Sorted testDateGE (sortTestsByDateDesc (client_tests db c)) :=
      List.sorted_insertionSort testDateGE _
    exact hsort.sublist (List.take_sublist 20 _)
  · intro u hu huc hnot t ht
    have humem : u ∈ sortTestsByDateDesc (client_tests db c) :=
      mem_sortTestsByDateDesc.mpr (mem_client_tests.mpr ⟨hu, huc⟩)
    rw [← List.take_append_drop 20 (sortTestsByDateDesc (client_tests db c))] at humem
    rcases List.mem_append.mp humem with h1 | h2
    · exact absurd h1 hnot
    · have hsort : List.Pairwise testDateGE (sortTestsByDateDesc (client_tests db c)) :=
        List.sorted_insertionSort testDateGE _
      rw [← List.take_append_drop 20 (sortTestsByDateDesc (client_tests db c))] at hsort
      exact (List.pairwise_append.mp hsort).2.2 t ht u h2

/-- C7 witness: in `dbLatest` the row `testB` is listed for client 1, and
the theorem places it among the strength tests of client 1. -/
theorem recent_tests_spec_witness :
    testB ∈ dbLatest.strength_tests ∧ testB.client_id = 1 :=
  (recent_tests_spec dbLatest 1).2.2.1 testB (by decide)

end StrengthApp
